import Mathlib

/-!
Shallow embedding of the Tic-Tac-Toe game server
(`tictactoe-server.py`): the `TicTacToeGame` class (board state, player
roster, move application, win/draw detection, elastic board sizing) and
the relevant parts of `GameServer` (the join-game listing and the
per-connection move-handling step of `handle_game`).

Boards are `List (List String)` with `" "` marking an empty cell, mirroring
the Python lists of one-character strings.  Python `int` coordinates are
`Int` (they may be negative); the dynamic `isinstance` type check of
`make_move` is modelled by a `PyVal` sum of Python values.  The session
lock is a non-reentrant `threading.Lock`; methods that acquire it without
nesting (`make_move`) are given their sequential semantics, the lock scope
of the accepted-move path is recorded as an event trace, and the nested
acquisition in `add_player`/`resize_board` is modelled by `LockResult`,
whose `deadlock` value is the non-returning second acquisition.
-/

/-- A player tuple `(connection, address, symbol)`; the connection and
address are opaque to the game logic, so they are plain `Nat` handles. -/
structure Player where
  conn : Nat
  addr : Nat
  symbol : String
deriving Repr, DecidableEq

/-- The fixed symbol palette `self.symbols` assigned in `__init__`. -/
def symbols : List String :=
  ["X", "O", "∆", "#", "@", "&", "%", "*", "+", "£", "€", "¥", "§", "¢", "¤"]

/-- State of one `TicTacToeGame` instance. -/
structure TicTacToeGame where
  game_id : Nat
  min_players : Nat
  board_size : Nat
  board : List (List String)
  players : List Player
  current_turn : Nat
  game_active : Bool
  game_started : Bool
  last_move : Option (Int × Int)
deriving Repr, DecidableEq

/-- Read cell `(i, j)` of a grid, with `" "` as the out-of-range default
(all real accesses are guarded by bounds checks, as in the source). -/
def gridGet (b : List (List String)) (i j : Nat) : String :=
  (b.getD i []).getD j " "

/-- Read a cell at possibly-negative Python coordinates; callers check
`0 ≤ r` and `0 ≤ c` first, exactly as the source's chained comparisons do. -/
def cellAt (b : List (List String)) (r c : Int) : String :=
  gridGet b r.toNat c.toNat

/-- Write cell `(r, c)` of a grid (`self.board[row][col] = symbol`). -/
def setCell (b : List (List String)) (r c : Int) (s : String) :
    List (List String) :=
  b.set r.toNat ((b.getD r.toNat []).set c.toNat s)

/-- An `n × n` grid whose `(i, j)` entry is `f i j`. -/
def mkGrid (n : Nat) (f : Nat → Nat → String) : List (List String) :=
  (List.range n).map (fun i => (List.range n).map (f i))

/-- `TicTacToeGame.__init__`: 3×3 board of blanks, empty roster, seat 0 to
move, active, not started, no last move. -/
def initGame (gid : Nat) : TicTacToeGame :=
  { game_id := gid
    min_players := 2
    board_size := 3
    board := mkGrid 3 (fun _ _ => " ")
    players := []
    current_turn := 0
    game_active := true
    game_started := false
    last_move := none }

/-- A Python value passed to `make_move`: an `int` or something else
(the source checks `isinstance(x, int)` on each argument). -/
inductive PyVal where
  | int (n : Int)
  | str (s : String)
deriving Repr, DecidableEq

/-- `isinstance(x, int)`. -/
def PyVal.isInt : PyVal → Bool
  | .int _ => true
  | .str _ => false

/-- The integer carried by a `PyVal` (only read after an `isInt` check). -/
def PyVal.toInt : PyVal → Int
  | .int n => n
  | .str _ => 0

/-- `TicTacToeGame.make_move(player_idx, row, col)`: returns the updated
game paired with the Python boolean result. -/
def make_move (g : TicTacToeGame) (player_idx row col : PyVal) :
    TicTacToeGame × Bool :=
  if ¬ (player_idx.isInt ∧ row.isInt ∧ col.isInt) then (g, false)
  else
    let p := player_idx.toInt
    let r := row.toInt
    let c := col.toInt
    if g.game_active = false ∨ g.game_started = false ∨
        (g.current_turn : Int) ≠ p ∨
        ¬ (0 ≤ r ∧ r < (g.board_size : Int) ∧ 0 ≤ c ∧ c < (g.board_size : Int)) ∨
        cellAt g.board r c ≠ " " then
      (g, false)
    else
      ({ g with
          board := setCell g.board r c
            ((g.players.getD p.toNat ⟨0, 0, " "⟩).symbol)
          last_move := some (r, c)
          current_turn := (g.current_turn + 1) % g.players.length }, true)

/-- The four direction pairs of `check_winner`: horizontal, vertical, main
diagonal, anti-diagonal; the first component of each step is the row
offset `dx`, the second the column offset `dy`. -/
def directions : List ((Int × Int) × (Int × Int)) :=
  [((0, 1), (0, -1)), ((1, 0), (-1, 0)), ((1, 1), (-1, -1)), ((1, -1), (-1, 1))]

/-- One bounds-and-symbol test of the inner loop of `check_winner`. -/
def inBoundsMatch (g : TicTacToeGame) (r c : Int) (s : String) : Bool :=
  decide (0 ≤ r) && decide (r < (g.board_size : Int)) &&
    decide (0 ≤ c) && decide (c < (g.board_size : Int)) &&
    (cellAt g.board r c == s)

/-- Cells counted in one direction `(dx, dy)` from `(r, c)`: the
`for i in range(1, 3)` loop with its early `break`, so at most 2 steps and
the count stops at the first edge or mismatching cell. -/
def dirRun (g : TicTacToeGame) (r c dx dy : Int) (s : String) : Nat :=
  if inBoundsMatch g (r + dx) (c + dy) s then
    if inBoundsMatch g (r + 2 * dx) (c + 2 * dy) s then 2 else 1
  else 0

/-- Total run length through `(r, c)` along one direction pair, including
the played cell itself (`count` starts at 1). -/
def pairRun (g : TicTacToeGame) (r c : Int) (s : String)
    (dp : (Int × Int) × (Int × Int)) : Nat :=
  1 + dirRun g r c dp.1.1 dp.1.2 s + dirRun g r c dp.2.1 dp.2.2 s

/-- The draw test of `check_winner`: every cell in the
`board_size × board_size` range is non-blank. -/
def board_full (g : TicTacToeGame) : Bool :=
  (List.range g.board_size).all fun i =>
    (List.range g.board_size).all fun j => gridGet g.board i j ≠ " "

/-- `TicTacToeGame.check_winner`: `none` when no move was made yet, the
winning symbol when some axis through the last move reaches run length 3,
`"DRAW"` on a full board, otherwise `none`. -/
def check_winner (g : TicTacToeGame) : Option String :=
  match g.last_move with
  | none => none
  | some (row, col) =>
    let symbol := cellAt g.board row col
    if directions.any (fun dp => decide (3 ≤ pairRun g row col symbol dp)) then
      some symbol
    else if board_full g then some "DRAW"
    else none

/-- Well-formed board: the grid really is `board_size × board_size`.
Every reachable game state satisfies this. -/
def wfBoard (g : TicTacToeGame) : Prop :=
  g.board.length = g.board_size ∧ ∀ row ∈ g.board, row.length = g.board_size

instance (g : TicTacToeGame) : Decidable (wfBoard g) := by
  unfold wfBoard; infer_instance

/-- Result of a method whose body runs under `with self.lock:`.  The
game's `self.lock` is a plain non-reentrant `threading.Lock`, so when the
calling thread already holds it, the acquisition blocks forever and the
method never returns; `deadlock` models that non-returning path. -/
inductive LockResult (α : Type) where
  | ok (a : α)
  | deadlock
deriving Repr, DecidableEq

/-- `TicTacToeGame.resize_board(new_size)`: the body builds a fresh blank
`new_size × new_size` grid into which the old marks are copied for
`i < min(len(board), new_size)` and `j < min(len(board[0]), new_size)` —
but the body only runs after `with self.lock:` succeeds.  `lockHeld`
records whether the calling thread already holds the session lock; the
lock is non-reentrant, so in that case the acquisition blocks forever. -/
def resize_board (g : TicTacToeGame) (new_size : Nat) (lockHeld : Bool) :
    LockResult TicTacToeGame :=
  if lockHeld then LockResult.deadlock
  else
    LockResult.ok
      { g with
          board := mkGrid new_size fun i j =>
            if i < min g.board.length new_size ∧
                j < min (g.board.getD 0 []).length new_size then
              gridGet g.board i j
            else " "
          board_size := new_size }

/-- `TicTacToeGame.add_player(conn, addr)`: the whole body runs under
`with self.lock:` (the handler thread acquires the free session lock).
It rejects when the game is inactive or the symbol palette is exhausted;
otherwise it appends the player with the next unused symbol and, when
`(len(players) + 1) * 2` exceeds the current size, calls `resize_board`
— still holding the non-reentrant session lock, so that call's own
`with self.lock:` blocks forever and `add_player` never returns.  When
no growth is needed it starts the game once the roster reaches
`min_players` and returns True. -/
def add_player (g : TicTacToeGame) (conn addr : Nat) :
    LockResult (TicTacToeGame × Bool) :=
  if g.game_active = false then LockResult.ok (g, false)
  else if symbols.length ≤ g.players.length then LockResult.ok (g, false)
  else
    let g1 := { g with
      players := g.players ++ [⟨conn, addr, symbols.getD g.players.length " "⟩] }
    let new_size := (g1.players.length + 1) * 2
    match (if g1.board_size < new_size
           then resize_board g1 new_size true
           else LockResult.ok g1) with
    | LockResult.deadlock => LockResult.deadlock
    | LockResult.ok g2 =>
      let g3 :=
        if g2.min_players ≤ g2.players.length ∧ g2.game_started = false then
          { g2 with game_started := true }
        else g2
      LockResult.ok (g3, true)

/-! ### The `GameServer` registry and the join-game listing -/

/-- Server state: the games dictionary in insertion (= creation) order,
the next id, and the server-active flag. -/
structure GameServer where
  games : List TicTacToeGame
  next_game_id : Nat
  active : Bool
deriving Repr, DecidableEq

/-- The filter at the top of `GameServer.handle_join_game`:
`[game for game in self.games.values() if game.game_active]`. -/
def active_games (srv : GameServer) : List TicTacToeGame :=
  srv.games.filter fun g => g.game_active

/-- One line of the game list sent by `handle_join_game`:
`f"Game {id} ({n} players, Board: {s}x{s})"`. -/
def game_info (g : TicTacToeGame) : String :=
  let gid := g.game_id
  let np := g.players.length
  let bs := g.board_size
  s!"Game {gid} ({np} players, Board: {bs}x{bs})"

/-- The message `handle_join_game` sends to a joining client: the
newline-joined game list, or `"No games available"` when no game has its
active flag set. -/
def handle_join_game_msg (srv : GameServer) : String :=
  if (active_games srv).isEmpty then "No games available"
  else String.intercalate "\n" ((active_games srv).map game_info)

/-! ### The move-handling step of `GameServer.handle_game` -/

/-- Python `int(s)` on a move coordinate: surrounding whitespace is
stripped, an optional sign is allowed, and the rest must be digits. -/
def pyParseInt (s : String) : Option Int :=
  let cs := s.trim.toList
  let signed : Int × List Char :=
    match cs with
    | '-' :: rest => (-1, rest)
    | '+' :: rest => (1, rest)
    | _ => (1, cs)
  if signed.2 ≠ [] ∧ signed.2.all Char.isDigit then
    some (signed.1 *
      (signed.2.foldl (fun acc d => acc * 10 + (d.toNat - 48)) 0 : Nat))
  else none

/-- `row, col = map(int, move.strip().split(','))` with its `except`:
`none` models the caught `ValueError` (wrong part count or non-integer). -/
def parse_move (mv : String) : Option (Int × Int) :=
  match mv.trim.splitOn "," with
  | [a, b] =>
    match pyParseInt a, pyParseInt b with
    | some r, some c => some (r, c)
    | _, _ => none
  | _ => none

/-- What the handler does after its move-handling block: leave the game
loop (`break`) or go around again (`continue` / fall through). -/
inductive LoopAction where
  | br
  | cont
deriving Repr, DecidableEq

/-- The `if game.current_turn == player_idx:` block of
`GameServer.handle_game` (the body that reads and applies one move), as a
function of the bytes read from the player's connection; `none` models an
empty read (disconnect), which raises `ConnectionError` and breaks out of
the loop.  Returns the resulting game state and the loop action. -/
def handle_move_step (g : TicTacToeGame) (player_idx : Nat)
    (recvd : Option String) : TicTacToeGame × LoopAction :=
  match recvd with
  | none => (g, LoopAction.br)
  | some mv =>
    match parse_move mv with
    | none => (g, LoopAction.cont)
    | some (r, c) =>
      let res := make_move g (PyVal.int player_idx) (PyVal.int r) (PyVal.int c)
      if res.2 then
        match check_winner res.1 with
        | some _ => ({ res.1 with game_active := false }, LoopAction.cont)
        | none => (res.1, LoopAction.cont)
      else (g, LoopAction.cont)

/-! ### Lock-scope traces for the accepted-move path

`make_move` wraps its body in `with self.lock:`; `check_winner` takes no
lock at all, and `handle_game` calls it after `make_move` has returned.
These event lists record the lock acquisitions/releases, the board
mutation, and the outcome evaluation along the accepted-move path of
`handle_game`, in program order. -/

/-- A lock/essential event on the accepted-move path. -/
inductive LockEv where
  | acq
  | rel
  | applyEv
  | evalEv
deriving Repr, DecidableEq

/-- Events of an accepting `make_move` call: the lock is acquired, the
board/turn mutation happens, the lock is released on leaving `with`. -/
def make_move_events : List LockEv := [LockEv.acq, LockEv.applyEv, LockEv.rel]

/-- Events of a `check_winner` call: the outcome evaluation, under no
lock acquisition of its own. -/
def check_winner_events : List LockEv := [LockEv.evalEv]

/-- `handle_game` lines: `if game.make_move(...): ... winner =
game.check_winner()` — the outcome evaluation runs directly after the
`make_move` call returns. -/
def accepted_move_events : List LockEv := make_move_events ++ check_winner_events

/-- The lock-nesting depth at each `evalEv` occurrence of a trace, given
the depth accumulated so far. -/
def evalLockDepths : Nat → List LockEv → List Nat
  | _, [] => []
  | d, LockEv.acq :: t => evalLockDepths (d + 1) t
  | d, LockEv.rel :: t => evalLockDepths (d - 1) t
  | d, LockEv.applyEv :: t => evalLockDepths d t
  | d, LockEv.evalEv :: t => d :: evalLockDepths d t

/-! ### Concrete states used by witnesses and counterexamples -/

/-- An in-progress two-player game on an empty 3×3 board, seat 0 (`"X"`)
to move. -/
def liveGame : TicTacToeGame :=
  { game_id := 1
    min_players := 2
    board_size := 3
    board := [[" ", " ", " "], [" ", " ", " "], [" ", " ", " "]]
    players := [⟨0, 0, "X"⟩, ⟨1, 1, "O"⟩]
    current_turn := 0
    game_active := true
    game_started := true
    last_move := none }

/-- The same game after X completed the top row with a move at `(0, 2)`. -/
def gXwin : TicTacToeGame :=
  { liveGame with
      board := [["X", "X", "X"], ["O", "O", " "], [" ", " ", " "]]
      last_move := some (0, 2)
      current_turn := 1 }

/-- A fully occupied 3×3 board with no three-in-a-row through the last
move `(2, 2)`. -/
def gDraw : TicTacToeGame :=
  { liveGame with
      board := [["X", "O", "X"], ["O", "X", "O"], ["O", "X", "O"]]
      last_move := some (2, 2)
      current_turn := 1 }

/-- An active game whose roster has reached the symbol-palette capacity
(15 players, board grown to 32×32). -/
def fullGame : TicTacToeGame :=
  { game_id := 1
    min_players := 2
    board_size := 32
    board := mkGrid 32 fun _ _ => " "
    players := (List.range 15).map fun i => ⟨i, i, symbols.getD i " "⟩
    current_turn := 0
    game_active := true
    game_started := true
    last_move := none }

/-- A registry holding only `fullGame`. -/
def fullServer : GameServer := ⟨[fullGame], 2, true⟩

/-- The joinable-session filter as the specification words it: the
session's active flag is true and the roster has not reached capacity
(the symbol-palette size).  Stated from the spec for comparison with the
source's `active_games` filter. -/
def listJoinable_claimed (srv : GameServer) : List TicTacToeGame :=
  srv.games.filter fun g =>
    g.game_active && decide (g.players.length < symbols.length)

/-- A registry with one fresh active game and one inactive game. -/
def srvEx : GameServer :=
  ⟨[initGame 1, { initGame 2 with game_active := false }], 3, true⟩

/-! ## Helper lemmas -/

/-- Writing a cell and reading it back at the same in-range position. -/
theorem gridGet_set_self (b : List (List String)) (i j : Nat) (s : String)
    (hi : i < b.length) (hj : j < (b.getD i []).length) :
    gridGet (b.set i ((b.getD i []).set j s)) i j = s := by
  unfold gridGet
  simp only [List.getD_eq_getElem?_getD]
  rw [List.getElem?_set_eq_of_lt _ hi]
  rw [Option.getD_some,
    List.getElem?_set_eq_of_lt _ (by simpa [List.getD_eq_getElem?_getD] using hj)]
  rfl

/-- On a well-formed board every row read by `getD` has length
`board_size`. -/
theorem rowD_length (g : TicTacToeGame) (hwf : wfBoard g) (i : Nat)
    (hi : i < g.board_size) : (g.board.getD i []).length = g.board_size := by
  have h0 : i < g.board.length := by rw [hwf.1]; exact hi
  rw [List.getD_eq_getElem?_getD, List.getElem?_eq_getElem h0]
  exact hwf.2 _ (List.getElem_mem h0)

/-- The `cellAt`/`setCell` round trip at an in-range position. -/
theorem cellAt_setCell_self (b : List (List String)) (r c : Int) (s : String)
    (hr : r.toNat < b.length) (hc : c.toNat < (b.getD r.toNat []).length) :
    cellAt (setCell b r c s) r c = s :=
  gridGet_set_self b r.toNat c.toNat s hr hc

/-- An accepting `make_move` call, written out as the updated record. -/
theorem make_move_accept_eq (g : TicTacToeGame) (k : Nat) (r c : Int)
    (hact : g.game_active = true) (hst : g.game_started = true)
    (hturn : g.current_turn = k)
    (hin : 0 ≤ r ∧ r < (g.board_size : Int) ∧ 0 ≤ c ∧ c < (g.board_size : Int))
    (hemp : cellAt g.board r c = " ") :
    make_move g (PyVal.int k) (PyVal.int r) (PyVal.int c) =
      ({ g with
          board := setCell g.board r c ((g.players.getD k ⟨0, 0, " "⟩).symbol)
          last_move := some (r, c)
          current_turn := (k + 1) % g.players.length }, true) := by
  unfold make_move
  simp only [PyVal.isInt, PyVal.toInt]
  rw [if_neg (by simp)]
  rw [if_neg (by simp [hact, hst, hturn, hin, hemp])]
  simp [hturn]

/-! ## Claim theorems -/

/-- Claim C1: with a last-played cell `(r, c)` holding symbol `s`, the win
check declares `s` the winner exactly when one of the four axis pairs
through `(r, c)` reaches a total contiguous run of at least 3 (the played
cell plus at most 2 capped steps in each direction, stopping at an edge or
a mismatching cell), for every board size. -/
theorem check_winner_axis_run_iff (g : TicTacToeGame) (r c : Int) (s : String)
    (hlm : g.last_move = some (r, c)) (hs : cellAt g.board r c = s)
    (hnd : s ≠ "DRAW") :
    check_winner g = some s ↔ ∃ dp ∈ directions, 3 ≤ pairRun g r c s dp := by
  unfold check_winner
  rw [hlm]
  simp only [hs]
  by_cases hwin : directions.any (fun dp => decide (3 ≤ pairRun g r c s dp)) = true
  · rw [if_pos hwin]
    simp only [List.any_eq_true, decide_eq_true_eq] at hwin
    exact ⟨fun _ => hwin, fun _ => rfl⟩
  · rw [if_neg hwin]
    simp only [List.any_eq_true, decide_eq_true_eq] at hwin
    constructor
    · intro hres
      exfalso
      by_cases hfull : board_full g = true
      · rw [if_pos hfull] at hres
        exact hnd (Option.some.inj hres).symm
      · rw [if_neg hfull] at hres
        exact Option.noConfusion hres
    · intro hex
      exact absurd hex hwin

/-- Witness for C1: X completing the top row at `(0, 2)` is declared the
winner. -/
theorem check_winner_axis_run_iff_witness : check_winner gXwin = some "X" := by
  have h := check_winner_axis_run_iff gXwin 0 2 "X" rfl rfl (by decide)
  exact h.mpr (by decide)

/-- Claim C2: an accepted move by the seat whose index equals
`current_turn`, on an empty in-range cell, writes exactly that player's
symbol into the cell, records the move in `last_move`, and advances
`current_turn` round-robin to `(k + 1) % rosterSize`. -/
theorem make_move_accept_updates (g : TicTacToeGame) (k : Nat) (r c : Int)
    (hwf : wfBoard g) (hk : k < g.players.length)
    (hact : g.game_active = true) (hst : g.game_started = true)
    (hturn : g.current_turn = k)
    (hin : 0 ≤ r ∧ r < (g.board_size : Int) ∧ 0 ≤ c ∧ c < (g.board_size : Int))
    (hemp : cellAt g.board r c = " ") :
    make_move g (PyVal.int k) (PyVal.int r) (PyVal.int c) =
      ({ g with
          board := setCell g.board r c ((g.players.getD k ⟨0, 0, " "⟩).symbol)
          last_move := some (r, c)
          current_turn := (k + 1) % g.players.length }, true) ∧
    cellAt (make_move g (PyVal.int k) (PyVal.int r) (PyVal.int c)).1.board r c =
      (g.players.getD k ⟨0, 0, " "⟩).symbol := by
  have heq := make_move_accept_eq g k r c hact hst hturn hin hemp
  refine ⟨heq, ?_⟩
  rw [heq]
  apply cellAt_setCell_self
  · rw [hwf.1]; omega
  · rw [rowD_length g hwf r.toNat (by omega)]; omega

/-- Witness for C2: X moving at `(2, 0)` in the live game leaves an X in
that cell. -/
theorem make_move_accept_updates_witness :
    cellAt (make_move liveGame (PyVal.int 0) (PyVal.int 2) (PyVal.int 0)).1.board
      2 0 = "X" :=
  (make_move_accept_updates liveGame 0 2 0 (by decide) (by decide) rfl rfl rfl
    (by decide) (by decide)).2

/-- Claim C3: whenever any rejection condition holds — game not active or
not started, wrong seat, out-of-range coordinates, or occupied target
cell — `make_move` returns false and the entire game state is returned
unchanged. -/
theorem make_move_reject_unchanged (g : TicTacToeGame) (p r c : Int)
    (h : g.game_active = false ∨ g.game_started = false ∨
      (g.current_turn : Int) ≠ p ∨
      ¬ (0 ≤ r ∧ r < (g.board_size : Int) ∧ 0 ≤ c ∧ c < (g.board_size : Int)) ∨
      cellAt g.board r c ≠ " ") :
    make_move g (PyVal.int p) (PyVal.int r) (PyVal.int c) = (g, false) := by
  unfold make_move
  simp only [PyVal.isInt, PyVal.toInt]
  rw [if_neg (by simp), if_pos h]

/-- Witness for C3: seat 1 moving out of turn is rejected with no state
change. -/
theorem make_move_reject_unchanged_witness :
    make_move liveGame (PyVal.int 1) (PyVal.int 0) (PyVal.int 0) =
      (liveGame, false) :=
  make_move_reject_unchanged liveGame 1 0 0 (Or.inr (Or.inr (Or.inl (by decide))))

/-- Claim C4: when no axis through the last-played cell reaches run length
3, the outcome is a draw exactly when every cell is occupied, and
otherwise no outcome at all — never a win. -/
theorem check_winner_draw_iff_full (g : TicTacToeGame) (r c : Int)
    (hlm : g.last_move = some (r, c))
    (hno : ∀ dp ∈ directions, pairRun g r c (cellAt g.board r c) dp < 3) :
    check_winner g = (if board_full g then some "DRAW" else none) := by
  unfold check_winner
  rw [hlm]
  have hany : directions.any
      (fun dp => decide (3 ≤ pairRun g r c (cellAt g.board r c) dp)) = false := by
    simp only [List.any_eq_false, decide_eq_true_eq, Nat.not_le]
    exact hno
  simp [hany]

/-- Witness for C4: the fully occupied board with no run through `(2, 2)`
is a draw. -/
theorem check_winner_draw_iff_full_witness : check_winner gDraw = some "DRAW" := by
  have h := check_winner_draw_iff_full gDraw 2 2 rfl (by decide)
  rw [h]
  decide

/-- Claim C5 (code divergence): on every admission to an active game with
palette capacity left whose elastic target `2 × (playerCount + 1)` exceeds
the current board size — including the very first admission to a fresh
3×3 game, whose target is 4 — `add_player`, still holding the session's
non-reentrant lock, calls `resize_board`, whose own lock acquisition
blocks forever: the admission never returns, so the claimed growth,
mark preservation, and game start are never exhibited on a growth path. -/
theorem add_player_growth_deadlocks (g : TicTacToeGame) (co ad : Nat)
    (hact : g.game_active = true) (hcap : g.players.length < symbols.length)
    (hgrow : g.board_size < (g.players.length + 1 + 1) * 2) :
    add_player g co ad = LockResult.deadlock := by
  have hne : ¬ (g.game_active = false) := by simp [hact]
  have hc2 : ¬ (symbols.length ≤ g.players.length) := Nat.not_le.mpr hcap
  unfold add_player
  rw [if_neg hne, if_neg hc2]
  simp only [List.length_append, List.length_cons, List.length_nil, Nat.zero_add]
  split
  · rfl
  · simp_all [resize_board]

/-- Witness for C5's failing input: admitting the first player to a fresh
game (board 3×3, elastic target 4) deadlocks instead of returning. -/
theorem add_player_growth_deadlocks_witness :
    add_player (initGame 7) 1 2 = LockResult.deadlock :=
  add_player_growth_deadlocks (initGame 7) 1 2 rfl (by decide) (by decide)

/-- Counterexample to claim C6: a session whose roster has reached
capacity (15 players, the whole symbol palette) but whose active flag is
still set.  The claimed joinable filter excludes it — so the claimed
listing would produce the no-games marker — yet the code's join path
still lists it, because `handle_join_game` filters on the active flag
only. -/
theorem join_listing_includes_full_game :
    fullGame.game_active = true ∧
    fullGame.players.length = symbols.length ∧
    listJoinable_claimed fullServer = [] ∧
    handle_join_game_msg fullServer ≠ "No games available" := by
  refine ⟨rfl, by decide, by decide, by decide⟩

/-- Claim C6 as amended: the join path lists exactly the sessions whose
active flag is true — regardless of roster capacity — in creation order;
each summary line exposes the id, player count, and board size (but not
the capacity); the explicit no-games marker is produced exactly when no
session has its active flag set. -/
theorem join_listing_active_only (srv : GameServer) :
    (active_games srv).Sublist srv.games ∧
    (∀ g, g ∈ active_games srv ↔ g ∈ srv.games ∧ g.game_active = true) ∧
    (active_games srv = [] → handle_join_game_msg srv = "No games available") ∧
    (active_games srv ≠ [] →
      handle_join_game_msg srv =
        String.intercalate "\n" ((active_games srv).map game_info)) := by
  refine ⟨List.filter_sublist _, ?_, ?_, ?_⟩
  · intro g
    simp [active_games, List.mem_filter]
  · intro h
    simp [handle_join_game_msg, h]
  · intro h
    rw [handle_join_game_msg, if_neg]
    simpa [List.isEmpty_iff] using h

/-- Witness for the amended C6: with one active and one inactive game the
message is the single summary line of the active game. -/
theorem join_listing_active_only_witness :
    handle_join_game_msg srvEx = "Game 1 (0 players, Board: 3x3)" := by
  have h := (join_listing_active_only srvEx).2.2.2 (by decide)
  rw [h]
  decide

/-- Counterexample to claim C7: a disconnect (empty read) while it is this
player's turn does not set the session's active flag to false — the
handler merely leaves its own loop and the game stays active. -/
theorem disconnect_leaves_game_active :
    liveGame.current_turn = 0 ∧ liveGame.game_active = true ∧
    (handle_move_step liveGame 0 none).1.game_active = true := by
  decide

/-- Claim C7 as amended: on an empty read during this player's turn the
handler raises and catches `ConnectionError` and breaks out of its own
game loop, leaving the session state — including the active flag —
completely unchanged. -/
theorem eof_breaks_loop_state_unchanged (g : TicTacToeGame) (k : Nat) :
    handle_move_step g k none = (g, LoopAction.br) := rfl

/-- Claim C8 (code divergence): along the accepted-move path of
`handle_game` the outcome evaluation happens exactly once and directly
after the `make_move` events, but at lock-nesting depth 0 — `make_move`
has already released the session lock when `check_winner` runs, so the
evaluation is not inside the critical section that applied the move. -/
theorem winner_eval_outside_critical_section :
    accepted_move_events =
      [LockEv.acq, LockEv.applyEv, LockEv.rel, LockEv.evalEv] ∧
    evalLockDepths 0 accepted_move_events = [0] := by
  decide

/-- Claim C9: when any of the three arguments of `make_move` is not an
integer, the move is rejected inside `make_move` itself with no state
change. -/
theorem make_move_nonint_reject (g : TicTacToeGame) (a b c : PyVal)
    (h : a.isInt = false ∨ b.isInt = false ∨ c.isInt = false) :
    make_move g a b c = (g, false) := by
  unfold make_move
  rcases h with h | h | h <;> simp [h]

/-- Witness for C9: a string player index is rejected. -/
theorem make_move_nonint_reject_witness :
    make_move liveGame (PyVal.str "a") (PyVal.int 0) (PyVal.int 0) =
      (liveGame, false) :=
  make_move_nonint_reject liveGame (PyVal.str "a") (PyVal.int 0) (PyVal.int 0)
    (Or.inl rfl)

/-- Claim C10: before any move has been applied (`last_move` unset),
`check_winner` reports no outcome regardless of the board contents. -/
theorem check_winner_none_before_first_move (g : TicTacToeGame)
    (h : g.last_move = none) : check_winner g = none := by
  unfold check_winner
  rw [h]

/-- Witness for C10: the live game with no move yet has no outcome. -/
theorem check_winner_none_before_first_move_witness :
    check_winner liveGame = none :=
  check_winner_none_before_first_move liveGame rfl
